import Mathlib

/-!
Shallow embedding of the Klein-Vortex-Architecture reactor simulation core
(`src/system_sim_embodiment_b.py` and `src/system_sim_embodiment_b_MassProduction.py`).

Python floats are modelled as real numbers; numpy 3-vectors as `Vec3`;
`np.clip` as `npClip`; `np.log` as `Real.log`; `x**(1/3)` as `Real.rpow`;
`np.linalg.norm` as the Euclidean norm.  The three module constants in which
the two source files differ (`VISCOSITY`, `RPM_MAGNET`, `ADHESION_LIMIT`) are
abstracted into a `Config` record; all other module constants are shared
definitions, faithful to both files (where they are textually identical).
-/

/-- A numpy 3-vector of floats, modelled over ℝ. -/
structure Vec3 where
  x : ℝ
  y : ℝ
  z : ℝ

namespace Vec3

/-- Componentwise vector addition (numpy `+`). -/
noncomputable def add (v w : Vec3) : Vec3 := ⟨v.x + w.x, v.y + w.y, v.z + w.z⟩

/-- Vector times scalar (numpy `vec * c`). -/
noncomputable def smul (v : Vec3) (c : ℝ) : Vec3 := ⟨v.x * c, v.y * c, v.z * c⟩

/-- Vector divided by scalar (numpy `vec / c`). -/
noncomputable def divScalar (v : Vec3) (c : ℝ) : Vec3 := ⟨v.x / c, v.y / c, v.z / c⟩

/-- Euclidean norm (`np.linalg.norm`). -/
noncomputable def norm (v : Vec3) : ℝ := Real.sqrt (v.x ^ 2 + v.y ^ 2 + v.z ^ 2)

end Vec3

/-- `np.clip(x, lo, hi)`. -/
noncomputable def npClip (x lo hi : ℝ) : ℝ := min (max x lo) hi

-- Module constants shared (with identical values) by both source files.

/-- `G = 9.81`. -/
noncomputable def G : ℝ := 9.81
/-- `RHO_FLUID = 750.0` (Dodecane). -/
noncomputable def RHO_FLUID : ℝ := 750.0
/-- `RHO_PARTICLE = 8900.0` (Co-Fe / Co-Mo alloy). -/
noncomputable def RHO_PARTICLE : ℝ := 8900.0
/-- `R_TANK = 0.05`. -/
noncomputable def R_TANK : ℝ := 0.05
/-- `LIFT_SPEED = 0.0004`. -/
noncomputable def LIFT_SPEED : ℝ := 0.0004
/-- `RPM_FLUID = 100.0`. -/
noncomputable def RPM_FLUID : ℝ := 100.0
/-- `MAGNET_STIFFNESS = 2e-5`. -/
noncomputable def MAGNET_STIFFNESS : ℝ := 2e-5
/-- `R_CORE = 3.0e-6` (3 µm Janus particle). -/
noncomputable def R_CORE : ℝ := 3.0e-6
/-- `R_CNT = 20e-9` (20 nm MWCNT). -/
noncomputable def R_CNT : ℝ := 20e-9
/-- `GROWTH_RATE = 80e-6` (80 µm/s). -/
noncomputable def GROWTH_RATE : ℝ := 80e-6
/-- `DT = 0.0005` (time step, s). -/
noncomputable def DT : ℝ := 0.0005

/-- The three module constants in which the two source variants differ. -/
structure Config where
  viscosity : ℝ
  rpm_magnet : ℝ
  adhesion_limit : ℝ

/-- The "precision" profile: constants of `system_sim_embodiment_b.py`
(`VISCOSITY = 0.4e-3`, `RPM_MAGNET = 99.95`, `ADHESION_LIMIT = 400e-9`). -/
noncomputable def precision : Config := ⟨0.4e-3, 99.95, 400e-9⟩

/-- The "robust" profile: constants of `system_sim_embodiment_b_MassProduction.py`
(`VISCOSITY = 0.6e-3`, `RPM_MAGNET = 99.8`, `ADHESION_LIMIT = 300e-9`). -/
noncomputable def robust : Config := ⟨0.6e-3, 99.8, 300e-9⟩

/-- Mutable state of `ReactorSystem` (fields of `__init__`). -/
structure State where
  pos : Vec3
  cnt_length : ℝ
  break_counter : ℕ
  max_length_record : ℝ
  thermal_energy : ℝ
  r_vapor : ℝ
  power_input : ℝ
  pid_err_sum : ℝ
  pid_last_err : ℝ
  current_z_vel_real : ℝ

/-- The initial state built by `ReactorSystem.__init__`. -/
noncomputable def State.init : State :=
  ⟨⟨R_TANK, 0.0, 0.0⟩, 1e-9, 0, 0.0, 0.0, 0.0, 0.0, 0.0, 0.0, 0.0⟩

/-- The tuple returned by `ReactorSystem.step`. -/
structure StepResult where
  pos : Vec3
  cnt_length : ℝ
  power_input : ℝ
  current_target_vel : ℝ
  r_vapor : ℝ
  f_tension : ℝ
  broken : Bool

/-- `ReactorSystem.get_fluid_velocity_field` (Taylor–Couette approximation). -/
noncomputable def getFluidVelocityField (pos : Vec3) : Vec3 :=
  let omega_fluid := (RPM_FLUID / 60.0) * 2 * Real.pi
  let r := Real.sqrt (pos.x ^ 2 + pos.y ^ 2)
  if r < 1e-6 then ⟨0, 0, LIFT_SPEED⟩
  else
    let v_tan_mag := omega_fluid * r
    ⟨-pos.y / r * v_tan_mag, pos.x / r * v_tan_mag, LIFT_SPEED⟩

/-- `ReactorSystem.get_magnetic_target` (trap position, z tracking the particle). -/
noncomputable def getMagneticTarget (cfg : Config) (s : State) (t : ℝ) : Vec3 :=
  let omega_mag := (cfg.rpm_magnet / 60.0) * 2 * Real.pi
  let angle := omega_mag * t
  ⟨R_TANK * Real.cos angle, R_TANK * Real.sin angle, s.pos.z⟩

-- Per-stage views of `ReactorSystem.step`, each transcribing the lines of the
-- source it names.  `ReactorSystem.step` below wires them together in source
-- order; the let-chain transcription `MassProduction.step` is proved
-- definitionally equal to that wiring.

/-- `ramp_time = 20.0` (soft-start window). -/
noncomputable def ramp_time : ℝ := 20.0

/-- Step 1 of `step`: soft-start ramped target velocity. -/
noncomputable def targetVel (t : ℝ) : ℝ :=
  if t < ramp_time then LIFT_SPEED * (t / ramp_time) else LIFT_SPEED

/-- Step 2 of `step`: filament length after chemical growth,
`cnt_length + GROWTH_RATE * DT`. -/
noncomputable def grownLength (s : State) : ℝ := s.cnt_length + GROWTH_RATE * DT

/-- Step 2 of `step`: running maximum update for `max_length_record`. -/
noncomputable def newMaxRecord (s : State) : ℝ :=
  if grownLength s > s.max_length_record then grownLength s else s.max_length_record

/-- Step 3 of `step`: velocity error `z_error = target − (real + noise)`. -/
noncomputable def zErrorOf (s : State) (t noise : ℝ) : ℝ :=
  targetVel t - (s.current_z_vel_real + noise)

/-- Step 3 of `step`: clamped PID integral accumulator (anti-windup). -/
noncomputable def newPidErrSum (s : State) (t noise : ℝ) : ℝ :=
  npClip (s.pid_err_sum + zErrorOf s t noise * DT) (-0.5) 0.5

/-- Step 3 of `step`: derivative term `(z_error − pid_last_err) / DT`. -/
noncomputable def dErrOf (s : State) (t noise : ℝ) : ℝ :=
  (zErrorOf s t noise - s.pid_last_err) / DT

/-- PID gain `kp = 80000.0`. -/
noncomputable def kp : ℝ := 80000.0
/-- PID gain `ki = 5000.0`. -/
noncomputable def ki : ℝ := 5000.0
/-- PID gain `kd = 500.0`. -/
noncomputable def kd : ℝ := 500.0

/-- Step 3 of `step`: controller adjustment `kp·e + ki·∫e + kd·de`. -/
noncomputable def pidAdj (s : State) (t noise : ℝ) : ℝ :=
  kp * zErrorOf s t noise + ki * newPidErrSum s t noise + kd * dErrOf s t noise

/-- Step 3 of `step`: induction power after accumulation and the [0,150] clamp. -/
noncomputable def newPower (s : State) (t noise : ℝ) : ℝ :=
  npClip (s.power_input + pidAdj s t noise * DT) 0 150

/-- Step 4 of `step`: thermal energy after the balance update and the `max(0,·)`
clamp: `max 0 (E + (power − E·2.0)·DT)`. -/
noncomputable def newEnergy (s : State) (t noise : ℝ) : ℝ :=
  max 0 (s.thermal_energy + (newPower s t noise - s.thermal_energy * 2.0) * DT)

/-- `k_vol = 1.0e-13`. -/
noncomputable def k_vol : ℝ := 1.0e-13

/-- Step 4 of `step`: derived vapor-shell radius `(E·k_vol)^(1/3)`. -/
noncomputable def newRVapor (s : State) (t noise : ℝ) : ℝ :=
  Real.rpow (newEnergy s t noise * k_vol) (1 / 3)

/-- Step 5 of `step`: `vol_core = (4/3)·π·R_CORE³`. -/
noncomputable def vol_core : ℝ := 4 / 3 * Real.pi * R_CORE ^ 3

/-- Step 5 of `step`: total mass = core mass + filament mass. -/
noncomputable def totalMass (len : ℝ) : ℝ :=
  vol_core * RHO_PARTICLE + Real.pi * R_CNT ^ 2 * len * 2200.0

/-- Step 5 of `step`: net vertical force `f_buoy − f_grav`, a function of the
vapor radius and the filament length only. -/
noncomputable def fZNet (r_vapor len : ℝ) : ℝ :=
  (vol_core + 4 / 3 * Real.pi * r_vapor ^ 3) * RHO_FLUID * G - totalMass len * G

/-- Step 5 of `step`: magnetic spring force (z-component of the displacement
zeroed before scaling). -/
noncomputable def fMag (cfg : Config) (s : State) (t : ℝ) : Vec3 :=
  Vec3.smul ⟨(getMagneticTarget cfg s t).x - s.pos.x,
             (getMagneticTarget cfg s t).y - s.pos.y, 0⟩ MAGNET_STIFFNESS

/-- `omega_fluid = (RPM_FLUID/60)·2π`. -/
noncomputable def omega_fluid : ℝ := RPM_FLUID / 60.0 * 2 * Real.pi

/-- Step 5 of `step`: centrifugal pseudo-force `mass·ω²·(x,y,0)`. -/
noncomputable def fCent (s : State) (len : ℝ) : Vec3 :=
  Vec3.smul ⟨s.pos.x, s.pos.y, 0⟩ (totalMass len * omega_fluid ^ 2)

/-- Step 6 of `step`: Stokes drag on the vapor-cushioned sphere,
`6π·ν·(R_CORE + r_vapor)`. -/
noncomputable def gammaSphere (cfg : Config) (r_vapor : ℝ) : ℝ :=
  6 * Real.pi * cfg.viscosity * (R_CORE + r_vapor)

/-- Step 6 of `step`: slender-body filament drag, zero when
`len ≤ 10·R_CNT`. -/
noncomputable def gammaCnt (cfg : Config) (len : ℝ) : ℝ :=
  if len > 10 * R_CNT then
    2 * Real.pi * cfg.viscosity * len / (Real.log (2 * len / R_CNT) - 0.5)
  else 0

/-- Step 6 of `step`: total drag coefficient. -/
noncomputable def gammaTotal (cfg : Config) (r_vapor len : ℝ) : ℝ :=
  gammaSphere cfg r_vapor + gammaCnt cfg len

/-- Step 6 of `step`: total external force: `f_mag + f_cent`, then
`f_external[2] += f_z_net`. -/
noncomputable def fExternal (cfg : Config) (s : State) (t r_vapor len : ℝ) : Vec3 :=
  ⟨(fMag cfg s t).x + (fCent s len).x,
   (fMag cfg s t).y + (fCent s len).y,
   (fMag cfg s t).z + (fCent s len).z + fZNet r_vapor len⟩

/-- Step 6 of `step`: overdamped drift velocity `f_external / gamma_total`. -/
noncomputable def vDrift (cfg : Config) (s : State) (t r_vapor len : ℝ) : Vec3 :=
  Vec3.divScalar (fExternal cfg s t r_vapor len) (gammaTotal cfg r_vapor len)

/-- `ReactorSystem.step`, the per-timestep transition
(`src/system_sim_embodiment_b.py`, the "precision" variant's engine), with the
per-call noise sample (`np.random.normal(0, 0.0002)` in the source) made an
explicit argument.  Returns the successor state together with the returned
tuple. -/
noncomputable def ReactorSystem.step (cfg : Config) (s : State) (t noise : ℝ) :
    State × StepResult :=
  let current_target_vel := targetVel t
  let cnt_length := grownLength s
  let max_length_record := newMaxRecord s
  let pid_err_sum := newPidErrSum s t noise
  let power_input := newPower s t noise
  let pid_last_err := zErrorOf s t noise
  let thermal_energy := newEnergy s t noise
  let r_vapor := newRVapor s t noise
  let v_drift := vDrift cfg s t r_vapor cnt_length
  let v_drift_mag := Vec3.norm v_drift
  let v_fluid := getFluidVelocityField s.pos
  let v_total := Vec3.add v_fluid v_drift
  let pos := Vec3.add s.pos (Vec3.smul v_total DT)
  let current_z_vel_real := v_total.z
  let gamma_cnt := gammaCnt cfg cnt_length
  let f_tension := v_drift_mag * gamma_cnt
  let broken : Bool := if f_tension > cfg.adhesion_limit ∧ t > 5.0 then true else false
  let break_counter := if broken then s.break_counter + 1 else s.break_counter
  let cnt_length_final := if broken then 1e-9 else cnt_length
  (⟨pos, cnt_length_final, break_counter, max_length_record, thermal_energy,
    r_vapor, power_input, pid_err_sum, pid_last_err, current_z_vel_real⟩,
   ⟨pos, cnt_length_final, power_input, current_target_vel, r_vapor,
    f_tension, broken⟩)

/-- The driver's loop (`for i in range(steps): t = i * DT; sim.step(t)`),
with the per-step noise samples supplied as a stream: the state after `n`
steps. -/
noncomputable def ReactorSystem.run (cfg : Config) (noise : ℕ → ℝ) : ℕ → State
  | 0 => State.init
  | n + 1 =>
      (ReactorSystem.step cfg (ReactorSystem.run cfg noise n) (n * DT) (noise n)).1

/-- The caller-visible interface of `step` in the source: the caller passes only
the state (implicit in `self`) and the elapsed time; the noise sample is drawn
inside the step from the global generator (`np.random.normal(0, 0.0002)`,
line 107), modelled here as a stream of samples `g` with a cursor `k` that
each call consumes and advances. -/
noncomputable def stepWithGlobalRng (cfg : Config) (g : ℕ → ℝ) (k : ℕ)
    (s : State) (t : ℝ) : (State × StepResult) × ℕ :=
  ((ReactorSystem.step cfg s t (g k)), k + 1)

/-- A pathological configuration (zero viscosity) under which the total drag
coefficient can reach zero; used to show the absence of any fail-fast guard on
the drift-velocity division. -/
noncomputable def pathological : Config := ⟨0.0, 99.95, 400e-9⟩

namespace MassProduction

/-!
Transcription of `src/system_sim_embodiment_b_MassProduction.py` (the "robust"
variant), whose class body is textually identical to
`src/system_sim_embodiment_b.py`; the module constants in which the two files
differ are the abstracted `Config` fields, and the remaining module constants
have identical values in both files and are shared.  `step` is transcribed as
one let-chain mirroring the source lines. -/

/-- `ReactorSystem.get_fluid_velocity_field` of the robust variant. -/
noncomputable def get_fluid_velocity_field (pos : Vec3) : Vec3 :=
  let omega_fluid := (RPM_FLUID / 60.0) * 2 * Real.pi
  let r := Real.sqrt (pos.x ^ 2 + pos.y ^ 2)
  if r < 1e-6 then ⟨0, 0, LIFT_SPEED⟩
  else
    let v_tan_mag := omega_fluid * r
    ⟨-pos.y / r * v_tan_mag, pos.x / r * v_tan_mag, LIFT_SPEED⟩

/-- `ReactorSystem.get_magnetic_target` of the robust variant. -/
noncomputable def get_magnetic_target (cfg : Config) (s : State) (t : ℝ) : Vec3 :=
  let omega_mag := (cfg.rpm_magnet / 60.0) * 2 * Real.pi
  let angle := omega_mag * t
  ⟨R_TANK * Real.cos angle, R_TANK * Real.sin angle, s.pos.z⟩

/-- `ReactorSystem.step` of the robust variant, transcribed line by line as a
let-chain. -/
noncomputable def step (cfg : Config) (s : State) (t noise : ℝ) :
    State × StepResult :=
  let ramp_time : ℝ := 20.0
  let current_target_vel :=
    if t < ramp_time then LIFT_SPEED * (t / ramp_time) else LIFT_SPEED
  let cnt_length := s.cnt_length + GROWTH_RATE * DT
  let max_length_record :=
    if cnt_length > s.max_length_record then cnt_length else s.max_length_record
  let measured_vel := s.current_z_vel_real + noise
  let z_error := current_target_vel - measured_vel
  let pid_err_sum := npClip (s.pid_err_sum + z_error * DT) (-0.5) 0.5
  let d_err := (z_error - s.pid_last_err) / DT
  let kp : ℝ := 80000.0
  let ki : ℝ := 5000.0
  let kd : ℝ := 500.0
  let adj := kp * z_error + ki * pid_err_sum + kd * d_err
  let power_input := npClip (s.power_input + adj * DT) 0 150
  let pid_last_err := z_error
  let cooling_loss := s.thermal_energy * 2.0
  let d_energy := (power_input - cooling_loss) * DT
  let thermal_energy := max 0 (s.thermal_energy + d_energy)
  let k_vol : ℝ := 1.0e-13
  let r_vapor := Real.rpow (thermal_energy * k_vol) (1 / 3)
  let vol_core := 4 / 3 * Real.pi * R_CORE ^ 3
  let vol_vapor := 4 / 3 * Real.pi * r_vapor ^ 3
  let vol_total := vol_core + vol_vapor
  let mass_particle := vol_core * RHO_PARTICLE
  let vol_cnt := Real.pi * R_CNT ^ 2 * cnt_length
  let mass_cnt := vol_cnt * 2200.0
  let total_mass := mass_particle + mass_cnt
  let f_buoy := vol_total * RHO_FLUID * G
  let f_grav := total_mass * G
  let f_z_net := f_buoy - f_grav
  let target_pos := get_magnetic_target cfg s t
  let dist_vec : Vec3 := ⟨target_pos.x - s.pos.x, target_pos.y - s.pos.y, 0⟩
  let f_mag := Vec3.smul dist_vec MAGNET_STIFFNESS
  let omega_fluid := RPM_FLUID / 60.0 * 2 * Real.pi
  let f_cent := Vec3.smul ⟨s.pos.x, s.pos.y, 0⟩ (total_mass * omega_fluid ^ 2)
  let r_eff_sphere := R_CORE + r_vapor
  let gamma_sphere := 6 * Real.pi * cfg.viscosity * r_eff_sphere
  let gamma_cnt :=
    if cnt_length > 10 * R_CNT then
      2 * Real.pi * cfg.viscosity * cnt_length /
        (Real.log (2 * cnt_length / R_CNT) - 0.5)
    else 0
  let gamma_total := gamma_sphere + gamma_cnt
  let f_external : Vec3 :=
    ⟨f_mag.x + f_cent.x, f_mag.y + f_cent.y, f_mag.z + f_cent.z + f_z_net⟩
  let v_drift := Vec3.divScalar f_external gamma_total
  let v_drift_mag := Vec3.norm v_drift
  let v_fluid := get_fluid_velocity_field s.pos
  let v_total := Vec3.add v_fluid v_drift
  let pos := Vec3.add s.pos (Vec3.smul v_total DT)
  let current_z_vel_real := v_total.z
  let f_tension := v_drift_mag * gamma_cnt
  let broken : Bool := if f_tension > cfg.adhesion_limit ∧ t > 5.0 then true else false
  let break_counter := if broken then s.break_counter + 1 else s.break_counter
  let cnt_length_final := if broken then 1e-9 else cnt_length
  (⟨pos, cnt_length_final, break_counter, max_length_record, thermal_energy,
    r_vapor, power_input, pid_err_sum, pid_last_err, current_z_vel_real⟩,
   ⟨pos, cnt_length_final, power_input, current_target_vel, r_vapor,
    f_tension, broken⟩)

end MassProduction


/-! ## Helper lemmas -/

lemma npClip_le (x lo hi : ℝ) : npClip x lo hi ≤ hi := min_le_right _ _

lemma le_npClip (x lo hi : ℝ) (h : lo ≤ hi) : lo ≤ npClip x lo hi :=
  le_min (le_max_right _ _) h

lemma newEnergy_nonneg (s : State) (t noise : ℝ) : 0 ≤ newEnergy s t noise :=
  le_max_left _ _

lemma newRVapor_nonneg (s : State) (t noise : ℝ) : 0 ≤ newRVapor s t noise :=
  Real.rpow_nonneg (mul_nonneg (newEnergy_nonneg s t noise) (by norm_num [k_vol])) _

lemma growth_pos : 0 < GROWTH_RATE * DT := by norm_num [GROWTH_RATE, DT]

/-- In every reachable state the filament is at least the seed length. -/
lemma run_length_ge (cfg : Config) (ns : ℕ → ℝ) (n : ℕ) :
    1e-9 ≤ (ReactorSystem.run cfg ns n).cnt_length := by
  induction n with
  | zero => norm_num [ReactorSystem.run, State.init]
  | succ n ih =>
      show 1e-9 ≤ (ReactorSystem.step _ _ _ _).1.cnt_length
      dsimp only [ReactorSystem.step]
      by_cases h : Vec3.norm (vDrift cfg (ReactorSystem.run cfg ns n) (n * DT)
          (newRVapor (ReactorSystem.run cfg ns n) (n * DT) (ns n))
          (grownLength (ReactorSystem.run cfg ns n))) *
          gammaCnt cfg (grownLength (ReactorSystem.run cfg ns n)) > cfg.adhesion_limit ∧
          (n : ℝ) * DT > 5.0
      · simp [h]
      · rw [if_neg h]
        simp only [Bool.false_eq_true, if_false]
        calc (1e-9 : ℝ) ≤ (ReactorSystem.run cfg ns n).cnt_length := ih
        _ ≤ grownLength (ReactorSystem.run cfg ns n) := by
            unfold grownLength; linarith [growth_pos]

/-- The axial component of the fluid field is `LIFT_SPEED` in both branches. -/
lemma fluidVelocity_z (p : Vec3) : (getFluidVelocityField p).z = LIFT_SPEED := by
  rw [getFluidVelocityField]
  by_cases h : Real.sqrt (p.x ^ 2 + p.y ^ 2) < 1e-6
  · rw [if_pos h]
  · rw [if_neg h]

/-- The new vertical velocity is `LIFT_SPEED + f_z_net / gamma_total`: the
spring and centrifugal forces have zero z-component and the fluid field's
axial component is constant. -/
lemma step_zvel (cfg : Config) (s : State) (t noise : ℝ) :
    (ReactorSystem.step cfg s t noise).1.current_z_vel_real =
      LIFT_SPEED + fZNet (newRVapor s t noise) (grownLength s) /
        gammaTotal cfg (newRVapor s t noise) (grownLength s) := by
  dsimp only [ReactorSystem.step, Vec3.add]
  rw [fluidVelocity_z]
  dsimp only [vDrift, Vec3.divScalar, fExternal, fMag, fCent, Vec3.smul]
  ring_nf

lemma newPower_le (s : State) (t noise : ℝ) : newPower s t noise ≤ 150 :=
  min_le_right _ _

/-- The energy balance update preserves the 75-unit ceiling (`DT = 0.0005`). -/
lemma newEnergy_le (s : State) (t noise : ℝ) (hE : s.thermal_energy ≤ 75) :
    newEnergy s t noise ≤ 75 := by
  rw [newEnergy]
  refine max_le (by norm_num) ?_
  have hP := newPower_le s t noise
  rw [DT] at *
  nlinarith [hP, hE]

lemma run_energy_le (cfg : Config) (ns : ℕ → ℝ) (n : ℕ) :
    (ReactorSystem.run cfg ns n).thermal_energy ≤ 75 := by
  induction n with
  | zero => norm_num [ReactorSystem.run, State.init]
  | succ n ih =>
      show (ReactorSystem.step _ _ _ _).1.thermal_energy ≤ 75
      dsimp only [ReactorSystem.step]
      exact newEnergy_le _ _ _ ih

/-- With `len > 10·R_CNT` the slender-body logarithmic denominator is
positive: `2·len/R_CNT > 20 > e^0.5`. -/
lemma log_denom_pos (len : ℝ) (h : len > 10 * R_CNT) :
    0 < Real.log (2 * len / R_CNT) - 0.5 := by
  have hR : (0:ℝ) < R_CNT := by norm_num [R_CNT]
  have h20 : (20:ℝ) < 2 * len / R_CNT := by
    rw [lt_div_iff₀ hR]
    nlinarith [h, hR]
  have hlog : Real.log 20 < Real.log (2 * len / R_CNT) :=
    Real.log_lt_log (by norm_num) h20
  have hhalf : (0.5:ℝ) < Real.log 20 := by
    rw [Real.lt_log_iff_exp_lt (by norm_num : (0:ℝ) < 20)]
    calc Real.exp 0.5 ≤ Real.exp 1 := Real.exp_le_exp.mpr (by norm_num)
    _ < 2.7182818286 := Real.exp_one_lt_d9
    _ < 20 := by norm_num
  linarith

lemma gammaSphere_pos (cfg : Config) (rv : ℝ) (hv : 0 < cfg.viscosity) (hrv : 0 ≤ rv) :
    0 < gammaSphere cfg rv := by
  rw [gammaSphere]
  have : (0:ℝ) < R_CORE + rv := by norm_num [R_CORE]; linarith
  positivity

lemma gammaCnt_nonneg (cfg : Config) (len : ℝ) (hv : 0 < cfg.viscosity) :
    0 ≤ gammaCnt cfg len := by
  rw [gammaCnt]
  by_cases h : len > 10 * R_CNT
  · rw [if_pos h]
    have hlen : (0:ℝ) < len := lt_trans (by norm_num [R_CNT]) h
    exact le_of_lt (div_pos (by positivity) (log_denom_pos len h))
  · rw [if_neg h]

/-- With zero noise from the initial state at `t = 0` the PID produces zero
power. -/
lemma newPower_init_zero : newPower State.init 0 0 = 0 := by
  rw [newPower, pidAdj, zErrorOf, newPidErrSum, dErrOf, zErrorOf, targetVel,
    if_pos (by norm_num [ramp_time] : (0:ℝ) < ramp_time)]
  norm_num [State.init, npClip, LIFT_SPEED, DT, kp, ki, kd, min_def, max_def]

/-- With noise `−1` from the initial state at `t = 0` the PID saturates the
power clamp. -/
lemma newPower_init_negone : newPower State.init 0 (-1) = 150 := by
  rw [newPower, pidAdj, zErrorOf, newPidErrSum, dErrOf, zErrorOf, targetVel,
    if_pos (by norm_num [ramp_time] : (0:ℝ) < ramp_time)]
  norm_num [State.init, npClip, LIFT_SPEED, DT, kp, ki, kd, min_def, max_def]

/-! ## Claim theorems -/

/-- C1: the returned break flag is true iff the computed tension strictly
exceeds the configured adhesion limit and `t` strictly exceeds the 5 s
stabilization window; exactly on those steps `break_counter` is incremented
by one and the filament length is reset to the seed value `1e-9`;
`max_length_record` is the running maximum (never reset); and no break can
occur at `t ≤ 5`. -/
theorem break_flag_iff_tension_and_time (cfg : Config) (s : State) (t noise : ℝ) :
    ((ReactorSystem.step cfg s t noise).2.broken = true ↔
      (ReactorSystem.step cfg s t noise).2.f_tension > cfg.adhesion_limit ∧ t > 5.0)
    ∧ ((ReactorSystem.step cfg s t noise).2.broken = true →
        (ReactorSystem.step cfg s t noise).1.break_counter = s.break_counter + 1 ∧
        (ReactorSystem.step cfg s t noise).1.cnt_length = 1e-9)
    ∧ ((ReactorSystem.step cfg s t noise).2.broken = false →
        (ReactorSystem.step cfg s t noise).1.break_counter = s.break_counter)
    ∧ (ReactorSystem.step cfg s t noise).1.max_length_record = newMaxRecord s
    ∧ (t ≤ 5.0 → (ReactorSystem.step cfg s t noise).2.broken = false) := by
  dsimp only [ReactorSystem.step]
  by_cases h : Vec3.norm (vDrift cfg s t (newRVapor s t noise) (grownLength s)) *
      gammaCnt cfg (grownLength s) > cfg.adhesion_limit ∧ t > 5.0
  · refine ⟨by simp [h], by simp [h], by simp [h], rfl,
      fun hle => absurd h.2 (not_lt.mpr hle)⟩
  · refine ⟨by simp [h], by simp [h], by simp [h], rfl, fun hle => by simp [h]⟩

/-- C2 (counterexample): the source contains no fail-fast check on the
drift-velocity division: under a pathological configuration with zero
viscosity the total drag coefficient is zero, yet the step still returns a
plain result (no error branch exists in `step`). -/
theorem unguarded_drift_division_counterexample :
    gammaTotal pathological (newRVapor State.init 0 0) (grownLength State.init) = 0 ∧
    (ReactorSystem.step pathological State.init 0 0).2.broken = false := by
  constructor
  · rw [gammaTotal, gammaSphere, gammaCnt, if_neg]
    · norm_num [pathological]
    · norm_num [grownLength, State.init, GROWTH_RATE, DT, R_CNT]
  · dsimp only [ReactorSystem.step]
    rw [if_neg (fun hc => absurd hc.2 (by norm_num : ¬((0:ℝ) > 5.0)))]

/-- C2 (amended): the computation is nevertheless well-defined wherever the
spec's preconditions hold: with positive configured viscosity the total drag
coefficient is strictly positive in every situation `step` can evaluate it
(the derived vapor radius is nonnegative and the core radius is positive),
and whenever the slender-body branch is taken the logarithmic denominator is
strictly positive. -/
theorem drag_denominators_positive (cfg : Config) (s : State) (t noise : ℝ)
    (hv : 0 < cfg.viscosity) :
    0 < gammaTotal cfg (newRVapor s t noise) (grownLength s) ∧
    (grownLength s > 10 * R_CNT →
      0 < Real.log (2 * grownLength s / R_CNT) - 0.5) := by
  constructor
  · rw [gammaTotal]
    have h1 := gammaSphere_pos cfg (newRVapor s t noise) hv (newRVapor_nonneg s t noise)
    have h2 := gammaCnt_nonneg cfg (grownLength s) hv
    linarith
  · exact fun h => log_denom_pos _ h

/-- Witness for `drag_denominators_positive` at the precision profile,
the initial state, `t = 0`, zero noise. -/
theorem drag_denominators_positive_witness :
    0 < precision.viscosity ∧
    (0 < gammaTotal precision (newRVapor State.init 0 0) (grownLength State.init) ∧
     (grownLength State.init > 10 * R_CNT →
       0 < Real.log (2 * grownLength State.init / R_CNT) - 0.5)) :=
  ⟨by norm_num [precision],
   drag_denominators_positive precision State.init 0 0 (by norm_num [precision])⟩

/-- C3: in every reachable state the clamped variables satisfy
`0 ≤ power_input ≤ 150`, `−0.5 ≤ pid_err_sum ≤ 0.5`, `thermal_energy ≥ 0`
and `r_vapor ≥ 0`. -/
theorem run_clamped_invariants (cfg : Config) (ns : ℕ → ℝ) (n : ℕ) :
    0 ≤ (ReactorSystem.run cfg ns n).power_input ∧
    (ReactorSystem.run cfg ns n).power_input ≤ 150 ∧
    -0.5 ≤ (ReactorSystem.run cfg ns n).pid_err_sum ∧
    (ReactorSystem.run cfg ns n).pid_err_sum ≤ 0.5 ∧
    0 ≤ (ReactorSystem.run cfg ns n).thermal_energy ∧
    0 ≤ (ReactorSystem.run cfg ns n).r_vapor := by
  cases n with
  | zero =>
      refine ⟨?_, ?_, ?_, ?_, ?_, ?_⟩ <;>
        norm_num [ReactorSystem.run, State.init]
  | succ n =>
      show 0 ≤ (ReactorSystem.step _ _ _ _).1.power_input ∧ _
      dsimp only [ReactorSystem.step]
      exact ⟨le_npClip _ _ _ (by norm_num), npClip_le _ _ _,
        le_npClip _ _ _ (by norm_num), npClip_le _ _ _,
        newEnergy_nonneg _ _ _, newRVapor_nonneg _ _ _⟩

/-- C4: on a step without a break the filament length grows by exactly
`GROWTH_RATE·DT` (hence strictly increases); on a break step the returned
length is exactly `1e-9`; and in every reachable state the length is at
least the seed `1e-9`. -/
theorem filament_growth_and_reset (cfg : Config) (ns : ℕ → ℝ) (n : ℕ) :
    ((ReactorSystem.step cfg (ReactorSystem.run cfg ns n) (n * DT) (ns n)).2.broken = false →
      (ReactorSystem.step cfg (ReactorSystem.run cfg ns n) (n * DT) (ns n)).1.cnt_length =
        (ReactorSystem.run cfg ns n).cnt_length + GROWTH_RATE * DT ∧
      (ReactorSystem.run cfg ns n).cnt_length <
        (ReactorSystem.step cfg (ReactorSystem.run cfg ns n) (n * DT) (ns n)).1.cnt_length)
    ∧ ((ReactorSystem.step cfg (ReactorSystem.run cfg ns n) (n * DT) (ns n)).2.broken = true →
      (ReactorSystem.step cfg (ReactorSystem.run cfg ns n) (n * DT) (ns n)).2.cnt_length = 1e-9)
    ∧ 1e-9 ≤ (ReactorSystem.run cfg ns n).cnt_length := by
  dsimp only [ReactorSystem.step]
  by_cases h : Vec3.norm (vDrift cfg (ReactorSystem.run cfg ns n) (n * DT)
      (newRVapor (ReactorSystem.run cfg ns n) (n * DT) (ns n))
      (grownLength (ReactorSystem.run cfg ns n))) *
      gammaCnt cfg (grownLength (ReactorSystem.run cfg ns n)) > cfg.adhesion_limit ∧
      (n : ℝ) * DT > 5.0
  · refine ⟨fun hb => ?_, fun _ => by simp [h], run_length_ge cfg ns n⟩
    rw [if_pos h] at hb
    exact absurd hb (by simp)
  · refine ⟨fun _ => ?_, fun hb => ?_, run_length_ge cfg ns n⟩
    · rw [if_neg h]
      simp only [Bool.false_eq_true, if_false]
      exact ⟨rfl, by unfold grownLength; linarith [growth_pos]⟩
    · rw [if_neg h] at hb
      exact absurd hb (by simp)

/-- C5: with the three differing module constants abstracted into `Config`,
the step functions of the precision variant (`system_sim_embodiment_b.py`)
and the robust variant (`system_sim_embodiment_b_MassProduction.py`) are
extensionally equal: one engine under two configurations. -/
theorem step_variants_extensionally_equal (cfg : Config) (s : State) (t noise : ℝ) :
    ReactorSystem.step cfg s t noise = MassProduction.step cfg s t noise := rfl

/-- C6 (counterexample): the noise is not an input supplied by the caller: in
the source it is drawn inside `step` from the hidden global generator, so two
calls with identical caller-visible arguments (same state, same elapsed time,
same call index) can return different results under different hidden
generator states. -/
theorem hidden_rng_counterexample :
    (stepWithGlobalRng precision (fun _ => 0) 0 State.init 0).1.2.power_input ≠
      (stepWithGlobalRng precision (fun _ => -1) 0 State.init 0).1.2.power_input := by
  dsimp only [stepWithGlobalRng, ReactorSystem.step]
  rw [newPower_init_zero, newPower_init_negone]
  norm_num

/-- C6 (amended): the transition is deterministic given the noise sample:
two runs of a step from equal states at equal elapsed times whose (hidden)
generators yield equal noise values produce equal successor states and equal
StepResults. -/
theorem step_deterministic_given_noise (cfg : Config) (g1 g2 : ℕ → ℝ) (k1 k2 : ℕ)
    (s : State) (t : ℝ) (h : g1 k1 = g2 k2) :
    (stepWithGlobalRng cfg g1 k1 s t).1 = (stepWithGlobalRng cfg g2 k2 s t).1 := by
  dsimp only [stepWithGlobalRng]
  rw [h]

/-- Witness for `step_deterministic_given_noise` on two copies of the zero
stream. -/
theorem step_deterministic_given_noise_witness :
    (fun _ : ℕ => (0:ℝ)) 0 = (fun _ : ℕ => (0:ℝ)) 0 ∧
    (stepWithGlobalRng precision (fun _ => 0) 0 State.init 0).1 =
      (stepWithGlobalRng precision (fun _ => 0) 0 State.init 0).1 :=
  ⟨rfl, step_deterministic_given_noise precision (fun _ => 0) (fun _ => 0) 0 0
    State.init 0 rfl⟩

/-- C7: when the post-growth filament length is at most `10·R_CNT` the
filament drag is zero and the returned tension is exactly zero; otherwise
the drag follows the slender-body formula; in all cases the returned tension
is `|v_drift|·γ_filament`. -/
theorem gamma_cnt_branch_and_tension (cfg : Config) (s : State) (t noise : ℝ) :
    (grownLength s ≤ 10 * R_CNT →
      gammaCnt cfg (grownLength s) = 0 ∧
      (ReactorSystem.step cfg s t noise).2.f_tension = 0)
    ∧ (grownLength s > 10 * R_CNT →
      gammaCnt cfg (grownLength s) =
        2 * Real.pi * cfg.viscosity * grownLength s /
          (Real.log (2 * grownLength s / R_CNT) - 0.5))
    ∧ (ReactorSystem.step cfg s t noise).2.f_tension =
        Vec3.norm (vDrift cfg s t (newRVapor s t noise) (grownLength s)) *
          gammaCnt cfg (grownLength s) := by
  refine ⟨fun h => ⟨?_, ?_⟩, fun h => ?_, rfl⟩
  · rw [gammaCnt, if_neg (not_lt.mpr h)]
  · show Vec3.norm _ * gammaCnt cfg (grownLength s) = 0
    rw [gammaCnt, if_neg (not_lt.mpr h), mul_zero]
  · rw [gammaCnt, if_pos h]

/-- C8: within `1e-6` of the tank axis (in particular at the exact point
`(0,0,z)`) the fluid velocity field returns `(0, 0, LIFT_SPEED)`, and at
every position its axial component equals `LIFT_SPEED`. -/
theorem velocity_field_near_axis (p : Vec3) :
    (Real.sqrt (p.x ^ 2 + p.y ^ 2) < 1e-6 →
      getFluidVelocityField p = ⟨0, 0, LIFT_SPEED⟩)
    ∧ (getFluidVelocityField p).z = LIFT_SPEED
    ∧ ∀ z : ℝ, getFluidVelocityField ⟨0, 0, z⟩ = ⟨0, 0, LIFT_SPEED⟩ := by
  refine ⟨fun h => ?_, fluidVelocity_z p, fun z => ?_⟩
  · rw [getFluidVelocityField, if_pos h]
  · rw [getFluidVelocityField, if_pos]
    show Real.sqrt (0 ^ 2 + 0 ^ 2) < 1e-6
    norm_num

/-- C9: in every reachable state `thermal_energy ≤ 75` (`= 150 / 2`, max
power over the cooling coefficient), hence `r_vapor ≤ (75·k_vol)^(1/3)`;
the energy update `max 0 (E + (P − 2E)·dt)` preserves the 75-bound for any
`0 ≤ dt ≤ 0.5` and `P ≤ 150`. -/
theorem thermal_energy_bound (cfg : Config) (ns : ℕ → ℝ) (n : ℕ) :
    (ReactorSystem.run cfg ns n).thermal_energy ≤ 75 ∧
    (ReactorSystem.run cfg ns n).r_vapor ≤ Real.rpow (75 * k_vol) (1 / 3) ∧
    (∀ E P dt : ℝ, 0 ≤ dt → dt ≤ 0.5 → P ≤ 150 → E ≤ 75 →
      max 0 (E + (P - E * 2.0) * dt) ≤ 75) := by
  refine ⟨run_energy_le cfg ns n, ?_, ?_⟩
  · cases n with
    | zero =>
        show (State.init).r_vapor ≤ _
        rw [State.init]
        exact le_trans (by norm_num) (Real.rpow_nonneg (by norm_num [k_vol]) _)
    | succ n =>
        show (ReactorSystem.step _ _ _ _).1.r_vapor ≤ _
        dsimp only [ReactorSystem.step]
        rw [newRVapor]
        refine Real.rpow_le_rpow (mul_nonneg (newEnergy_nonneg _ _ _) (by norm_num [k_vol]))
          (mul_le_mul_of_nonneg_right (newEnergy_le _ _ _ (run_energy_le cfg ns n))
            (by norm_num [k_vol])) (by norm_num)
  · intro E P dt h0 h5 hP hE
    refine max_le (by norm_num) ?_
    nlinarith [mul_nonneg (by linarith : (0:ℝ) ≤ 75 - E) (by linarith : (0:ℝ) ≤ 1 - 2 * dt)]

/-- C10: the new vertical velocity equals
`LIFT_SPEED + f_z_net / gamma_total` exactly, where `f_z_net` is a function
of the updated vapor radius and filament length only; neither the lateral
position nor the trap (the magnet RPM) influences it. -/
theorem vertical_velocity_formula (cfg : Config) (s : State) (t noise : ℝ) :
    (ReactorSystem.step cfg s t noise).1.current_z_vel_real =
      LIFT_SPEED + fZNet (newRVapor s t noise) (grownLength s) /
        gammaTotal cfg (newRVapor s t noise) (grownLength s)
    ∧ (∀ px py : ℝ,
      (ReactorSystem.step cfg { s with pos := ⟨px, py, s.pos.z⟩ } t noise).1.current_z_vel_real =
        (ReactorSystem.step cfg s t noise).1.current_z_vel_real)
    ∧ ∀ rpm : ℝ,
      (ReactorSystem.step ⟨cfg.viscosity, rpm, cfg.adhesion_limit⟩ s t noise).1.current_z_vel_real =
        (ReactorSystem.step cfg s t noise).1.current_z_vel_real := by
  refine ⟨step_zvel cfg s t noise, fun px py => ?_, fun rpm => ?_⟩
  · rw [step_zvel, step_zvel]
    rfl
  · rw [step_zvel, step_zvel]
    rfl
